import Mathlib

/-!
# kspan: capture, playback and exported traces

A shallow embedding of `controllers/events/playback.go` (capture framing,
`getInitialObjects`, `playback`, `watchManager.playback`), the expected traces
listed in `controllers/events/event_controller_test.go`, and the commit
protocol of the event correlator.

Go values are embedded as follows.

* An `error` is its text (`GoError`); a nil error is `none`.
* A call either returns or panics (`Run`).
* A decoded `runtime.Object` is an `Object`: the kind of its
  `GroupVersionKind`, its dynamic Go type, the accessor `meta.Accessor` gives
  for it, and the rest of the document as `body`.
* A capture file is the result of `os.Open` together with the frames the YAML
  frame reader yields before `io.EOF`; each frame carries the `# <time>`
  comment written in front of it and the result of `Decode`.
* Standard output is a list of written chunks, threaded through explicitly.
* A Go map is an association list with distinct keys; the order in which
  `range` visits it is a parameter.
-/

namespace Kspan

/-! ## Data model of `playback.go` -/

/-- Text of a Go `error` value, as printed by `%v`. -/
abbrev GoError := String

/-- Kubernetes object UID (`types.UID`). -/
abbrev UID := String

/-- Outcome of a call: it returns a value, or it panics with a message. -/
inductive Run (α : Type) where
  | returned (a : α)
  | panicked (msg : String)

/-- Dynamic Go type of a decoded `runtime.Object`, as far as the type assertions
of `playback.go` tell types apart: `*v1.Event`, `*unstructured.Unstructured`,
or any other type, given by its name. -/
inductive GoType where
  | event
  | unstructured
  | other (name : String)
deriving DecidableEq, Repr

/-- Object metadata read through the accessor of `meta.Accessor`:
`GetNamespace`, `GetName` and `GetUID`. -/
structure ObjectMeta where
  ns : String
  name : String
  uid : UID
deriving DecidableEq, Repr

/-- Decoded `runtime.Object`, reduced to what `playback.go` reads from it: the
kind of its `GroupVersionKind`, its dynamic type, and the accessor returned
by `meta.Accessor`, which is nil (`none`) for an object without object
metadata such as a `v1.Status` or a list. `body` stands for the rest of the
document. -/
structure Object where
  kind : String
  goType : GoType
  accessor : Option ObjectMeta
  body : String
deriving DecidableEq, Repr

/-- UID of an object that has object metadata. -/
def Object.uid? (o : Object) : Option UID := o.accessor.map ObjectMeta.uid

/-- One frame of a capture file: the observation time comment that precedes
the document, and what `s.Decoder().Decode(fr)` returns for the document. -/
structure Frame where
  stamp : String
  doc : Except GoError Object

/-- Result of `os.Open(filename)` followed by reading frames until `io.EOF`. -/
abbrev Opened := Except GoError (List Frame)

/-- Message of the runtime panic raised by a method call on a nil accessor. -/
def nilAccessorPanic : String :=
  "runtime error: invalid memory address or nil pointer dereference"

/-- Message of the runtime panic raised by a failed type assertion. -/
def assertionPanic (wanted : String) : String :=
  "interface conversion: runtime.Object is not " ++ wanted

/-! ## `getInitialObjects` (playback.go:32-69) -/

/-- The `for` loop of `getInitialObjects` (playback.go:43-62). `objects` is the
map from UID to object, `out` the text printed so far. The end of the frame
list is `io.EOF`. The error of `meta.Accessor` is discarded (line 52), so for
a non-Event object without object metadata `ma.GetUID()` (line 57) is a call
on a nil accessor and panics. -/
def getInitialObjectsLoop :
    List Frame → List (UID × Object) → List String →
      List String × Run (Except GoError (List (UID × Object)))
  | [], objects, out => (out, .returned (.ok objects))
  | f :: rest, objects, out =>
    match f.doc with
    | .error e => (out, .returned (.error e))
    | .ok obj =>
      if obj.kind = "Event" then
        getInitialObjectsLoop rest objects out
      else
        match obj.accessor with
        | none => (out, .panicked nilAccessorPanic)
        | some ma =>
          if (objects.lookup ma.uid).isSome then
            getInitialObjectsLoop rest objects out
          else
            getInitialObjectsLoop rest (objects ++ [(ma.uid, obj)])
              (out ++ [obj.kind ++ " " ++ ma.ns ++ " " ++ ma.name ++ "\n"])

/-- Embedding of `getInitialObjects` (playback.go:32-69): the printed text and
the outcome, which when the call returns is the pair
`([]runtime.Object, error)` as an `Except`. `iter` is the order in which
`range objects` visits the map. -/
def getInitialObjects (iter : List (UID × Object) → List (UID × Object))
    (opened : Opened) : List String × Run (Except GoError (List Object)) :=
  match opened with
  | .error e => ([], .returned (.error e))
  | .ok frames =>
    match getInitialObjectsLoop frames [] [] with
    | (out, .panicked msg) => (out, .panicked msg)
    | (out, .returned (.error e)) => (out, .returned (.error e))
    | (out, .returned (.ok objects)) => (out, .returned (.ok ((iter objects).map Prod.snd)))

/-! ## `watchManager.playback` (playback.go:102-112) -/

/-- Embedding of the `watchManager` fields used here: `watches`, the map from an
object reference to its `*watchInfo`. `Ref` is the type of object references
returned by `refFromObject`, `W` the state of one `watchInfo`. -/
structure watchManager (Ref W : Type) where
  watches : List (Ref × W)

/-- Store the state `wi` that a `watchInfo` has after a call made through the
pointer found under `ref`; the keys of the map stay as they are. -/
def watchManager.store {Ref W : Type} [DecidableEq Ref]
    (m : watchManager Ref W) (ref : Ref) (wi : W) : watchManager Ref W :=
  ⟨m.watches.map (fun kv => if kv.1 = ref then (kv.1, wi) else kv)⟩

/-- What a call of `watchManager.playback` that returns leaves behind: the
manager, the notifier state, the calls of `checkConditionUpdates` it made
(receiver and argument), and the returned error. -/
structure PlaybackResult (Ref W N : Type) where
  manager : watchManager Ref W
  notifier : N
  calls : List (W × Object)
  err : Option GoError

/-- Embedding of `watchManager.playback` (playback.go:102-112).
`refFromObject`, the `%q` rendering of a reference and
`watchInfo.checkConditionUpdates` are declared elsewhere in the package and
are parameters; `refFromObject` receives the accessor of `meta.Accessor`,
whose error is discarded (line 103). When a watch is found, the assertion
`obj.(*unstructured.Unstructured)` (line 111) is evaluated before the call and
panics for an object of any other type. `checkConditionUpdates` receives the
`watchInfo`, the object and the notifier, and returns their new states and
its error. -/
def watchManager.playback {Ref W N : Type} [DecidableEq Ref]
    (refFromObject : Option ObjectMeta → Ref) (quoteRef : Ref → String)
    (checkConditionUpdates : W → Object → N → W × N × Option GoError)
    (m : watchManager Ref W) (obj : Object) (ew : N) : Run (PlaybackResult Ref W N) :=
  let ref := refFromObject obj.accessor
  match m.watches.lookup ref with
  | none =>
    .returned ⟨m, ew, [], some ("watcher not found for object " ++ quoteRef ref)⟩
  | some wi =>
    if obj.goType = GoType.unstructured then
      match checkConditionUpdates wi obj ew with
      | (wi1, ew1, err) => .returned ⟨m.store ref wi1, ew1, [(wi, obj)], err⟩
    else .panicked (assertionPanic "*unstructured.Unstructured")

/-! ## `EventWatcher`, `captureObject` (playback.go:20-30) -/

/-- Embedding of the `EventWatcher` fields that `playback.go` touches:
`Capture`, the sink of `captureObject` (`none` is a nil `io.Writer`, otherwise
the chunks written so far), `watcher`, the watch manager, and `core`, the
state `handleEvent` works on. -/
structure EventWatcher (Ref W N : Type) where
  Capture : Option (List String)
  watcher : watchManager Ref W
  core : N

/-- Embedding of `EventWatcher.captureObject` (playback.go:21-30). `now` is the
value of `time.Now()`, `rfc3339` is `Time.Format(time.RFC3339)`, and `encode`
is the text the serializer writes to the frame writer for `obj` (its error is
discarded by the code). `fmt.Fprintln` separates its operands by one space and
ends the line. -/
def EventWatcher.captureObject {Ref W N T : Type}
    (rfc3339 : T → String) (encode : Object → String)
    (r : EventWatcher Ref W N) (now : T) (obj : Object) : EventWatcher Ref W N :=
  match r.Capture with
  | none => r
  | some sink =>
    ⟨some (sink ++ ["---" ++ "\n", "#" ++ " " ++ rfc3339 now ++ "\n", encode obj]),
      r.watcher, r.core⟩

/-- Observing a sequence of changes: one `captureObject` call per change, each
with the clock reading at that moment. -/
def EventWatcher.captureAll {Ref W N T : Type}
    (rfc3339 : T → String) (encode : Object → String)
    (r : EventWatcher Ref W N) (changes : List (T × Object)) : EventWatcher Ref W N :=
  changes.foldl (fun acc c => acc.captureObject rfc3339 encode c.1 c.2) r

/-! ## `playback` (playback.go:71-100) -/

/-- A call dispatched by `playback`. -/
inductive Dispatch where
  | handleEvent (obj : Object)
  | watcherPlayback (obj : Object)
deriving DecidableEq, Repr

/-- State threaded through `playback`: the watcher, the text printed so far, the
dispatches made so far, and the message of the panic that ended the replay,
if one did. -/
structure PlaybackState (Ref W N : Type) where
  r : EventWatcher Ref W N
  out : List String
  dispatched : List Dispatch
  panicMsg : Option String

/-- Print `error: <err>` when the handler returned a non-nil error
(playback.go:96-98). -/
def printHandlerError (out : List String) : Option GoError → List String
  | none => out
  | some e => out ++ ["error: " ++ e]

/-- The `for` loop of `playback` (playback.go:80-99). `handleEvent` is
`EventWatcher.handleEvent`, declared elsewhere in the package; it works on
`core`. The branch is chosen by the kind alone; the assertion
`obj.(*v1.Event)` (line 92) is evaluated before `handleEvent` is called and
panics for an object of kind `Event` of any other type, and a panic of
`watchManager.playback` ends the replay as well. -/
def playbackLoop {Ref W N : Type} [DecidableEq Ref]
    (refFromObject : Option ObjectMeta → Ref) (quoteRef : Ref → String)
    (checkConditionUpdates : W → Object → N → W × N × Option GoError)
    (handleEvent : N → Object → N × Option GoError) :
    List Frame → PlaybackState Ref W N → PlaybackState Ref W N
  | [], s => s
  | f :: rest, s =>
    match f.doc with
    | .error e => ⟨s.r, s.out ++ ["error: " ++ e], s.dispatched, s.panicMsg⟩
    | .ok obj =>
      if obj.kind = "Event" then
        if obj.goType = GoType.event then
          match handleEvent s.r.core obj with
          | (core1, err) =>
            playbackLoop refFromObject quoteRef checkConditionUpdates handleEvent rest
              ⟨⟨s.r.Capture, s.r.watcher, core1⟩, printHandlerError s.out err,
                s.dispatched ++ [Dispatch.handleEvent obj], s.panicMsg⟩
        else ⟨s.r, s.out, s.dispatched, some (assertionPanic "*v1.Event")⟩
      else
        match watchManager.playback refFromObject quoteRef checkConditionUpdates
            s.r.watcher obj s.r.core with
        | .panicked msg =>
          ⟨s.r, s.out, s.dispatched ++ [Dispatch.watcherPlayback obj], some msg⟩
        | .returned res =>
          playbackLoop refFromObject quoteRef checkConditionUpdates handleEvent rest
            ⟨⟨s.r.Capture, res.manager, res.notifier⟩, printHandlerError s.out res.err,
              s.dispatched ++ [Dispatch.watcherPlayback obj], s.panicMsg⟩

/-- Embedding of `playback` (playback.go:71-100). `quoteName` is the `%q`
rendering of the file name. -/
def playback {Ref W N : Type} [DecidableEq Ref]
    (refFromObject : Option ObjectMeta → Ref) (quoteRef : Ref → String)
    (checkConditionUpdates : W → Object → N → W × N × Option GoError)
    (handleEvent : N → Object → N × Option GoError)
    (quoteName : String → String)
    (r : EventWatcher Ref W N) (filename : String) (opened : Opened) :
    PlaybackState Ref W N :=
  match opened with
  | .error e => ⟨r, ["error opening " ++ quoteName filename ++ ": " ++ e], [], none⟩
  | .ok frames =>
    playbackLoop refFromObject quoteRef checkConditionUpdates handleEvent frames
      ⟨r, [], [], none⟩

/-! ## Exported trace lines and the expected traces of the tests -/

/-- Modelled from the spec: the trace output record of section 3 (assigned
index, component, kind and reason of the `Kind.Reason` string, parent index,
absent for a root, and message). The exporter type is declared outside
`playback.go`; the tests compare the lines of `exporter.dump()`. -/
structure TraceLine where
  index : Nat
  component : String
  kind : String
  reason : String
  parent : Option Nat
  message : String
deriving DecidableEq, Repr

/-- The `(p)` field of a line: present, with a leading blank, when the line has
a parent. -/
def renderParent : Option Nat → String
  | some p => " (" ++ toString p ++ ")"
  | none => ""

/-- Text of a trace line, in the format of the `wantTraces` entries of
`event_controller_test.go`: `<index>: <component> <Kind>.<Reason> [(<parent>) ]<message>`. -/
def TraceLine.render (l : TraceLine) : String :=
  toString l.index ++ ": " ++ l.component ++ " " ++ l.kind ++ "." ++ l.reason ++
    renderParent l.parent ++ " " ++ l.message

/-- Expected trace `wantTraces` of test case `scaledown-later`, as text. -/
def wantTraces_scaledownLater : List String := [
  "0: kubectl Deployment.Update ",
  "1: deployment-controller Deployment.ScalingReplicaSet (0) Scaled up replica set hello-world-6b9d85fbd6 to 1",
  "2: replicaset-controller ReplicaSet.SuccessfulCreate (1) Created pod: hello-world-6b9d85fbd6-klpv2",
  "3: default-scheduler Pod.Scheduled (2) Successfully assigned default/hello-world-6b9d85fbd6-klpv2 to kind-control-plane",
  "4: kubelet Pod.Pulled (2) Container image \"nginx:1.19.2-alpine\" already present on machine",
  "5: kubelet Pod.Created (2) Created container hello-world",
  "6: kubelet Pod.Started (2) Started container hello-world",
  "7: deployment-controller Deployment.ScalingReplicaSet (0) Scaled down replica set hello-world-7ff854f459 to 0",
  "8: kubelet Pod.Killing (7) Stopping container hello-world",
  "9: replicaset-controller ReplicaSet.SuccessfulDelete (7) Deleted pod: hello-world-7ff854f459-kl4hq"]

/-- Expected trace `wantTraces` of test case `scaledown-earlier`, as text. -/
def wantTraces_scaledownEarlier : List String := [
  "0: kubectl Deployment.Update ",
  "1: deployment-controller Deployment.ScalingReplicaSet (0) Scaled up replica set hello-world-6b9d85fbd6 to 1",
  "2: replicaset-controller ReplicaSet.SuccessfulCreate (1) Created pod: hello-world-6b9d85fbd6-klpv2",
  "3: default-scheduler Pod.Scheduled (2) Successfully assigned default/hello-world-6b9d85fbd6-klpv2 to kind-control-plane",
  "4: kubelet Pod.Pulled (2) Container image \"nginx:1.19.2-alpine\" already present on machine",
  "5: kubelet Pod.Created (2) Created container hello-world",
  "6: kubelet Pod.Started (2) Started container hello-world",
  "7: deployment-controller Deployment.ScalingReplicaSet (0) Scaled down replica set hello-world-7ff854f459 to 0",
  "8: kubelet Pod.Killing (7) Stopping container hello-world",
  "9: replicaset-controller ReplicaSet.SuccessfulDelete (7) Deleted pod: hello-world-7ff854f459-kl4hq"]

/-- Expected trace `wantTraces` of test case `straight`, as text. -/
def wantTraces_straight : List String := [
  "0: kubectl-client-side-apply Deployment.Update ",
  "1: replicaset-controller ReplicaSet.SuccessfulDelete (0) Deleted pod: bryan-podinfo-787c9986b5-tkd9p",
  "2: kubelet Pod.Killing (1) Stopping container podinfod",
  "3: deployment-controller Deployment.ScalingReplicaSet (0) Scaled up replica set bryan-podinfo-5c5df9754b to 1",
  "4: replicaset-controller ReplicaSet.SuccessfulCreate (3) Created pod: bryan-podinfo-5c5df9754b-4w2hj",
  "5: default-scheduler Pod.Scheduled (4) Successfully assigned default/bryan-podinfo-5c5df9754b-4w2hj to kind-control-plane",
  "6: kubelet Pod.Pulling (4) Pulling image \"ghcr.io/stefanprodan/podinfo:5.0.3\"",
  "7: kubelet Pod.Pulled (4) Successfully pulled image \"ghcr.io/stefanprodan/podinfo:5.0.3\" in 7.556422631s",
  "8: kubelet Pod.Created (4) Created container podinfod",
  "9: kubelet Pod.Started (4) Started container podinfod",
  "10: deployment-controller Deployment.ScalingReplicaSet (0) Scaled down replica set bryan-podinfo-787c9986b5 to 1",
  "11: deployment-controller Deployment.ScalingReplicaSet (0) Scaled up replica set bryan-podinfo-5c5df9754b to 2",
  "12: replicaset-controller ReplicaSet.SuccessfulCreate (11) Created pod: bryan-podinfo-5c5df9754b-bhj4w",
  "13: default-scheduler Pod.Scheduled (12) Successfully assigned default/bryan-podinfo-5c5df9754b-bhj4w to kind-control-plane",
  "14: kubelet Pod.Pulling (12) Pulling image \"ghcr.io/stefanprodan/podinfo:5.0.3\"",
  "15: kubelet Pod.Pulled (12) Successfully pulled image \"ghcr.io/stefanprodan/podinfo:5.0.3\" in 8.129591184s",
  "16: kubelet Pod.Created (12) Created container podinfod",
  "17: kubelet Pod.Started (12) Started container podinfod",
  "18: deployment-controller Deployment.ScalingReplicaSet (0) Scaled down replica set bryan-podinfo-787c9986b5 to 0",
  "19: kubelet Pod.Killing (18) Stopping container podinfod",
  "20: replicaset-controller ReplicaSet.SuccessfulDelete (18) Deleted pod: bryan-podinfo-787c9986b5-fws9t"]

/-- Expected trace `wantTraces` of test case `flux-event-later`, as text. -/
def wantTraces_fluxEventLater : List String := [
  "0: flux Deployment.Sync Commit e332e7bac962: Update nginx",
  "1: deployment-controller Deployment.ScalingReplicaSet (0) Scaled up replica set hello-world-f77b4f6c8 to 1",
  "2: replicaset-controller ReplicaSet.SuccessfulCreate (1) Created pod: hello-world-f77b4f6c8-6tcj2",
  "3: default-scheduler Pod.Scheduled (2) Successfully assigned default/hello-world-f77b4f6c8-6tcj2 to node2",
  "4: kubelet Pod.Pulling (2) Pulling image \"nginx:1.19.3-alpine\"",
  "5: kubelet Pod.Pulled (2) Successfully pulled image \"nginx:1.19.3-alpine\"",
  "6: kubelet Pod.Created (2) Created container hello-world",
  "7: kubelet Pod.Started (2) Started container hello-world",
  "8: deployment-controller Deployment.ScalingReplicaSet (0) Scaled down replica set hello-world-779cbf9f67 to 0",
  "9: replicaset-controller ReplicaSet.SuccessfulDelete (8) Deleted pod: hello-world-779cbf9f67-nbwfm"]

/-- Expected trace `wantTraces` of test case `flux-sts`, as text. -/
def wantTraces_fluxSts : List String := [
  "0: flux StatefulSet.Sync Commit fc4e825b46ac: Update ingester to latest, in dev",
  "1: statefulset-controller StatefulSet.SuccessfulDelete (0) delete Pod ingester-3 in StatefulSet ingester successful",
  "2: kubelet Pod.Killing (1) Stopping container ingester",
  "3: statefulset-controller StatefulSet.SuccessfulCreate (0) create Pod ingester-3 in StatefulSet ingester successful",
  "4: default-scheduler Pod.Scheduled (3) Successfully assigned cortex/ingester-3 to ip-172-20-2-25.ec2.internal",
  "5: kubelet Pod.Pulled (3) Container image \"cortexproject/cortex:master-a2be3d8\" already present on machine",
  "6: kubelet Pod.Created (3) Created container ingester",
  "7: kubelet Pod.Started (3) Started container ingester",
  "8: kubelet Pod.Killing (0) Stopping container ingester",
  "9: statefulset-controller StatefulSet.SuccessfulDelete (0) delete Pod ingester-2 in StatefulSet ingester successful",
  "10: default-scheduler Pod.Scheduled (9) Successfully assigned cortex/ingester-2 to ip-172-20-2-22.ec2.internal",
  "11: statefulset-controller StatefulSet.SuccessfulCreate (0) create Pod ingester-2 in StatefulSet ingester successful",
  "12: kubelet Pod.Pulled (11) Container image \"cortexproject/cortex:master-a2be3d8\" already present on machine",
  "13: kubelet Pod.Created (11) Created container ingester",
  "14: kubelet Pod.Started (11) Started container ingester"]

/-- Expected trace `wantTraces` of test case `test-playback`, as text. -/
def wantTraces_testPlayback : List String := [
  "0: kubectl-client-side-apply Deployment.Update ",
  "1: kube-controller-manager Deployment.MinimumReplicasUnavailable (0) Deployment does not have minimum availability.",
  "2: kube-controller-manager Deployment.ReplicaSetUpdated (1) ReplicaSet \"px-5f87d8856c\" is progressing.",
  "3: kube-controller-manager Deployment.MinimumReplicasAvailable (2) Deployment has minimum availability.",
  "4: deployment-controller Deployment.ScalingReplicaSet (0) Scaled up replica set px-5f87d8856c to 2",
  "5: replicaset-controller ReplicaSet.SuccessfulCreate (4) Created pod: px-5f87d8856c-8f6bk",
  "6: unknown Pod.PodScheduled (5) PodScheduled True",
  "7: default-scheduler Pod.Scheduled (5) Successfully assigned default/px-5f87d8856c-8f6bk to kind-control-plane",
  "8: kubelet Pod.Pulling (5) Pulling image \"ghcr.io/stefanprodan/podinfo:5.1.1\"",
  "9: kubelet Pod.Pulled (5) Successfully pulled image \"ghcr.io/stefanprodan/podinfo:5.1.1\" in 6.055782903s",
  "10: kubelet Pod.Created (5) Created container podinfo",
  "11: kubelet Pod.Started (5) Started container podinfo",
  "12: kubelet Pod.Ready (5) Ready True",
  "13: kubelet Pod.ContainersReady (5) ContainersReady True",
  "14: replicaset-controller ReplicaSet.SuccessfulCreate (4) Created pod: px-5f87d8856c-c29hj",
  "15: kubelet Pod.Initialized (14) Initialized True",
  "16: kubelet Pod.ContainersNotReady (14) containers with unready status: [podinfo]",
  "17: kubelet Pod.ContainersNotReady (14) containers with unready status: [podinfo]",
  "18: kubelet Pod.PodScheduled (14) PodScheduled True",
  "19: default-scheduler Pod.Scheduled (14) Successfully assigned default/px-5f87d8856c-c29hj to kind-control-plane",
  "20: kubelet Pod.Pulling (14) Pulling image \"ghcr.io/stefanprodan/podinfo:5.1.1\"",
  "21: kubelet Pod.Pulled (14) Successfully pulled image \"ghcr.io/stefanprodan/podinfo:5.1.1\" in 5.510339507s",
  "22: kubelet Pod.Created (14) Created container podinfo",
  "23: kubelet Pod.Started (14) Started container podinfo",
  "24: kubelet Pod.Ready (14) Ready True",
  "25: kubelet Pod.ContainersReady (14) ContainersReady True"]

/-- Expected trace of test case `scaledown-later`, line by line as records. -/
def trace_scaledownLater : List TraceLine := [
  ⟨0, "kubectl", "Deployment", "Update", none,
    ""⟩,
  ⟨1, "deployment-controller", "Deployment", "ScalingReplicaSet", (some 0),
    "Scaled up replica set hello-world-6b9d85fbd6 to 1"⟩,
  ⟨2, "replicaset-controller", "ReplicaSet", "SuccessfulCreate", (some 1),
    "Created pod: hello-world-6b9d85fbd6-klpv2"⟩,
  ⟨3, "default-scheduler", "Pod", "Scheduled", (some 2),
    "Successfully assigned default/hello-world-6b9d85fbd6-klpv2 to kind-control-plane"⟩,
  ⟨4, "kubelet", "Pod", "Pulled", (some 2),
    "Container image \"nginx:1.19.2-alpine\" already present on machine"⟩,
  ⟨5, "kubelet", "Pod", "Created", (some 2),
    "Created container hello-world"⟩,
  ⟨6, "kubelet", "Pod", "Started", (some 2),
    "Started container hello-world"⟩,
  ⟨7, "deployment-controller", "Deployment", "ScalingReplicaSet", (some 0),
    "Scaled down replica set hello-world-7ff854f459 to 0"⟩,
  ⟨8, "kubelet", "Pod", "Killing", (some 7),
    "Stopping container hello-world"⟩,
  ⟨9, "replicaset-controller", "ReplicaSet", "SuccessfulDelete", (some 7),
    "Deleted pod: hello-world-7ff854f459-kl4hq"⟩]

/-- Expected trace of test case `scaledown-earlier`, line by line as records. -/
def trace_scaledownEarlier : List TraceLine := [
  ⟨0, "kubectl", "Deployment", "Update", none,
    ""⟩,
  ⟨1, "deployment-controller", "Deployment", "ScalingReplicaSet", (some 0),
    "Scaled up replica set hello-world-6b9d85fbd6 to 1"⟩,
  ⟨2, "replicaset-controller", "ReplicaSet", "SuccessfulCreate", (some 1),
    "Created pod: hello-world-6b9d85fbd6-klpv2"⟩,
  ⟨3, "default-scheduler", "Pod", "Scheduled", (some 2),
    "Successfully assigned default/hello-world-6b9d85fbd6-klpv2 to kind-control-plane"⟩,
  ⟨4, "kubelet", "Pod", "Pulled", (some 2),
    "Container image \"nginx:1.19.2-alpine\" already present on machine"⟩,
  ⟨5, "kubelet", "Pod", "Created", (some 2),
    "Created container hello-world"⟩,
  ⟨6, "kubelet", "Pod", "Started", (some 2),
    "Started container hello-world"⟩,
  ⟨7, "deployment-controller", "Deployment", "ScalingReplicaSet", (some 0),
    "Scaled down replica set hello-world-7ff854f459 to 0"⟩,
  ⟨8, "kubelet", "Pod", "Killing", (some 7),
    "Stopping container hello-world"⟩,
  ⟨9, "replicaset-controller", "ReplicaSet", "SuccessfulDelete", (some 7),
    "Deleted pod: hello-world-7ff854f459-kl4hq"⟩]

/-- Expected trace of test case `straight`, line by line as records. -/
def trace_straight : List TraceLine := [
  ⟨0, "kubectl-client-side-apply", "Deployment", "Update", none,
    ""⟩,
  ⟨1, "replicaset-controller", "ReplicaSet", "SuccessfulDelete", (some 0),
    "Deleted pod: bryan-podinfo-787c9986b5-tkd9p"⟩,
  ⟨2, "kubelet", "Pod", "Killing", (some 1),
    "Stopping container podinfod"⟩,
  ⟨3, "deployment-controller", "Deployment", "ScalingReplicaSet", (some 0),
    "Scaled up replica set bryan-podinfo-5c5df9754b to 1"⟩,
  ⟨4, "replicaset-controller", "ReplicaSet", "SuccessfulCreate", (some 3),
    "Created pod: bryan-podinfo-5c5df9754b-4w2hj"⟩,
  ⟨5, "default-scheduler", "Pod", "Scheduled", (some 4),
    "Successfully assigned default/bryan-podinfo-5c5df9754b-4w2hj to kind-control-plane"⟩,
  ⟨6, "kubelet", "Pod", "Pulling", (some 4),
    "Pulling image \"ghcr.io/stefanprodan/podinfo:5.0.3\""⟩,
  ⟨7, "kubelet", "Pod", "Pulled", (some 4),
    "Successfully pulled image \"ghcr.io/stefanprodan/podinfo:5.0.3\" in 7.556422631s"⟩,
  ⟨8, "kubelet", "Pod", "Created", (some 4),
    "Created container podinfod"⟩,
  ⟨9, "kubelet", "Pod", "Started", (some 4),
    "Started container podinfod"⟩,
  ⟨10, "deployment-controller", "Deployment", "ScalingReplicaSet", (some 0),
    "Scaled down replica set bryan-podinfo-787c9986b5 to 1"⟩,
  ⟨11, "deployment-controller", "Deployment", "ScalingReplicaSet", (some 0),
    "Scaled up replica set bryan-podinfo-5c5df9754b to 2"⟩,
  ⟨12, "replicaset-controller", "ReplicaSet", "SuccessfulCreate", (some 11),
    "Created pod: bryan-podinfo-5c5df9754b-bhj4w"⟩,
  ⟨13, "default-scheduler", "Pod", "Scheduled", (some 12),
    "Successfully assigned default/bryan-podinfo-5c5df9754b-bhj4w to kind-control-plane"⟩,
  ⟨14, "kubelet", "Pod", "Pulling", (some 12),
    "Pulling image \"ghcr.io/stefanprodan/podinfo:5.0.3\""⟩,
  ⟨15, "kubelet", "Pod", "Pulled", (some 12),
    "Successfully pulled image \"ghcr.io/stefanprodan/podinfo:5.0.3\" in 8.129591184s"⟩,
  ⟨16, "kubelet", "Pod", "Created", (some 12),
    "Created container podinfod"⟩,
  ⟨17, "kubelet", "Pod", "Started", (some 12),
    "Started container podinfod"⟩,
  ⟨18, "deployment-controller", "Deployment", "ScalingReplicaSet", (some 0),
    "Scaled down replica set bryan-podinfo-787c9986b5 to 0"⟩,
  ⟨19, "kubelet", "Pod", "Killing", (some 18),
    "Stopping container podinfod"⟩,
  ⟨20, "replicaset-controller", "ReplicaSet", "SuccessfulDelete", (some 18),
    "Deleted pod: bryan-podinfo-787c9986b5-fws9t"⟩]

/-- Expected trace of test case `flux-event-later`, line by line as records. -/
def trace_fluxEventLater : List TraceLine := [
  ⟨0, "flux", "Deployment", "Sync", none,
    "Commit e332e7bac962: Update nginx"⟩,
  ⟨1, "deployment-controller", "Deployment", "ScalingReplicaSet", (some 0),
    "Scaled up replica set hello-world-f77b4f6c8 to 1"⟩,
  ⟨2, "replicaset-controller", "ReplicaSet", "SuccessfulCreate", (some 1),
    "Created pod: hello-world-f77b4f6c8-6tcj2"⟩,
  ⟨3, "default-scheduler", "Pod", "Scheduled", (some 2),
    "Successfully assigned default/hello-world-f77b4f6c8-6tcj2 to node2"⟩,
  ⟨4, "kubelet", "Pod", "Pulling", (some 2),
    "Pulling image \"nginx:1.19.3-alpine\""⟩,
  ⟨5, "kubelet", "Pod", "Pulled", (some 2),
    "Successfully pulled image \"nginx:1.19.3-alpine\""⟩,
  ⟨6, "kubelet", "Pod", "Created", (some 2),
    "Created container hello-world"⟩,
  ⟨7, "kubelet", "Pod", "Started", (some 2),
    "Started container hello-world"⟩,
  ⟨8, "deployment-controller", "Deployment", "ScalingReplicaSet", (some 0),
    "Scaled down replica set hello-world-779cbf9f67 to 0"⟩,
  ⟨9, "replicaset-controller", "ReplicaSet", "SuccessfulDelete", (some 8),
    "Deleted pod: hello-world-779cbf9f67-nbwfm"⟩]

/-- Expected trace of test case `flux-sts`, line by line as records. -/
def trace_fluxSts : List TraceLine := [
  ⟨0, "flux", "StatefulSet", "Sync", none,
    "Commit fc4e825b46ac: Update ingester to latest, in dev"⟩,
  ⟨1, "statefulset-controller", "StatefulSet", "SuccessfulDelete", (some 0),
    "delete Pod ingester-3 in StatefulSet ingester successful"⟩,
  ⟨2, "kubelet", "Pod", "Killing", (some 1),
    "Stopping container ingester"⟩,
  ⟨3, "statefulset-controller", "StatefulSet", "SuccessfulCreate", (some 0),
    "create Pod ingester-3 in StatefulSet ingester successful"⟩,
  ⟨4, "default-scheduler", "Pod", "Scheduled", (some 3),
    "Successfully assigned cortex/ingester-3 to ip-172-20-2-25.ec2.internal"⟩,
  ⟨5, "kubelet", "Pod", "Pulled", (some 3),
    "Container image \"cortexproject/cortex:master-a2be3d8\" already present on machine"⟩,
  ⟨6, "kubelet", "Pod", "Created", (some 3),
    "Created container ingester"⟩,
  ⟨7, "kubelet", "Pod", "Started", (some 3),
    "Started container ingester"⟩,
  ⟨8, "kubelet", "Pod", "Killing", (some 0),
    "Stopping container ingester"⟩,
  ⟨9, "statefulset-controller", "StatefulSet", "SuccessfulDelete", (some 0),
    "delete Pod ingester-2 in StatefulSet ingester successful"⟩,
  ⟨10, "default-scheduler", "Pod", "Scheduled", (some 9),
    "Successfully assigned cortex/ingester-2 to ip-172-20-2-22.ec2.internal"⟩,
  ⟨11, "statefulset-controller", "StatefulSet", "SuccessfulCreate", (some 0),
    "create Pod ingester-2 in StatefulSet ingester successful"⟩,
  ⟨12, "kubelet", "Pod", "Pulled", (some 11),
    "Container image \"cortexproject/cortex:master-a2be3d8\" already present on machine"⟩,
  ⟨13, "kubelet", "Pod", "Created", (some 11),
    "Created container ingester"⟩,
  ⟨14, "kubelet", "Pod", "Started", (some 11),
    "Started container ingester"⟩]

/-- Expected trace of test case `test-playback`, line by line as records. -/
def trace_testPlayback : List TraceLine := [
  ⟨0, "kubectl-client-side-apply", "Deployment", "Update", none,
    ""⟩,
  ⟨1, "kube-controller-manager", "Deployment", "MinimumReplicasUnavailable", (some 0),
    "Deployment does not have minimum availability."⟩,
  ⟨2, "kube-controller-manager", "Deployment", "ReplicaSetUpdated", (some 1),
    "ReplicaSet \"px-5f87d8856c\" is progressing."⟩,
  ⟨3, "kube-controller-manager", "Deployment", "MinimumReplicasAvailable", (some 2),
    "Deployment has minimum availability."⟩,
  ⟨4, "deployment-controller", "Deployment", "ScalingReplicaSet", (some 0),
    "Scaled up replica set px-5f87d8856c to 2"⟩,
  ⟨5, "replicaset-controller", "ReplicaSet", "SuccessfulCreate", (some 4),
    "Created pod: px-5f87d8856c-8f6bk"⟩,
  ⟨6, "unknown", "Pod", "PodScheduled", (some 5),
    "PodScheduled True"⟩,
  ⟨7, "default-scheduler", "Pod", "Scheduled", (some 5),
    "Successfully assigned default/px-5f87d8856c-8f6bk to kind-control-plane"⟩,
  ⟨8, "kubelet", "Pod", "Pulling", (some 5),
    "Pulling image \"ghcr.io/stefanprodan/podinfo:5.1.1\""⟩,
  ⟨9, "kubelet", "Pod", "Pulled", (some 5),
    "Successfully pulled image \"ghcr.io/stefanprodan/podinfo:5.1.1\" in 6.055782903s"⟩,
  ⟨10, "kubelet", "Pod", "Created", (some 5),
    "Created container podinfo"⟩,
  ⟨11, "kubelet", "Pod", "Started", (some 5),
    "Started container podinfo"⟩,
  ⟨12, "kubelet", "Pod", "Ready", (some 5),
    "Ready True"⟩,
  ⟨13, "kubelet", "Pod", "ContainersReady", (some 5),
    "ContainersReady True"⟩,
  ⟨14, "replicaset-controller", "ReplicaSet", "SuccessfulCreate", (some 4),
    "Created pod: px-5f87d8856c-c29hj"⟩,
  ⟨15, "kubelet", "Pod", "Initialized", (some 14),
    "Initialized True"⟩,
  ⟨16, "kubelet", "Pod", "ContainersNotReady", (some 14),
    "containers with unready status: [podinfo]"⟩,
  ⟨17, "kubelet", "Pod", "ContainersNotReady", (some 14),
    "containers with unready status: [podinfo]"⟩,
  ⟨18, "kubelet", "Pod", "PodScheduled", (some 14),
    "PodScheduled True"⟩,
  ⟨19, "default-scheduler", "Pod", "Scheduled", (some 14),
    "Successfully assigned default/px-5f87d8856c-c29hj to kind-control-plane"⟩,
  ⟨20, "kubelet", "Pod", "Pulling", (some 14),
    "Pulling image \"ghcr.io/stefanprodan/podinfo:5.1.1\""⟩,
  ⟨21, "kubelet", "Pod", "Pulled", (some 14),
    "Successfully pulled image \"ghcr.io/stefanprodan/podinfo:5.1.1\" in 5.510339507s"⟩,
  ⟨22, "kubelet", "Pod", "Created", (some 14),
    "Created container podinfo"⟩,
  ⟨23, "kubelet", "Pod", "Started", (some 14),
    "Started container podinfo"⟩,
  ⟨24, "kubelet", "Pod", "Ready", (some 14),
    "Ready True"⟩,
  ⟨25, "kubelet", "Pod", "ContainersReady", (some 14),
    "ContainersReady True"⟩]

/-! ## Pending buffer and commit protocol

`EventWatcher.handleEvent`, `checkOlderPending` and `flushOutgoing` are called
by the tests and by `playback`, and declared in another file of the package.
The definitions of this section follow sections 3, 4.2 and 4.4 of the
specification. -/

/-- Modelled from the spec: the RawEvent of section 3, the argument of
`EventWatcher.handleEvent`: reporting component, kind and identity of the
involved object, reason, message and effective timestamp. -/
structure RawEvent where
  component : String
  kind : String
  object : String
  reason : String
  message : String
  timestamp : Nat
deriving DecidableEq, Repr

/-- Modelled from the spec: the resolved-parent reference of a PendingEntry
(section 3): not yet resolved, root, or the stable identity of another entry. -/
inductive ParentRef where
  | unresolved
  | root
  | entry (id : Nat)
deriving DecidableEq, Repr

/-- Modelled from the spec: the PendingEntry of section 3. The insertion
sequence number `seq` is the stable identity of the entry. -/
structure PendingEntry where
  event : RawEvent
  parent : ParentRef
  seq : Nat
deriving DecidableEq, Repr

/-- Modelled from the spec: the state of the Pending Buffer and Correlator
(section 2): the pending entries in ascending effective-timestamp order, the
index assigned to each committed entry, the lines emitted to the exporter, and
the next insertion sequence number. -/
structure Correlator where
  pending : List PendingEntry
  committed : List (Nat × Nat)
  exported : List TraceLine
  nextSeq : Nat
deriving DecidableEq, Repr

/-- Modelled from the spec: the empty state of the Correlator of a new
`EventWatcher`. -/
def Correlator.empty : Correlator := ⟨[], [], [], 0⟩

/-- Modelled from the spec: step 4 of section 4.2, insertion into the pending
set keyed by effective timestamp. Among equal timestamps section 3 orders
entries by the Reason-Sequence Table and by structural precedence, which the
specification does not list: they are the parameter `precedes`. A tie that
`precedes` leaves open keeps the earlier insertion first (the insertion
sequence number of section 3, a stable order). -/
def insertByTime (precedes : RawEvent → RawEvent → Bool) (e : PendingEntry) :
    List PendingEntry → List PendingEntry
  | [] => [e]
  | x :: rest =>
    if e.event.timestamp < x.event.timestamp ∨
        (e.event.timestamp = x.event.timestamp ∧ precedes e.event x.event = true) then
      e :: x :: rest
    else x :: insertByTime precedes e rest

/-- Modelled from the spec: resolution of the deferred entries (section 4.2):
every entry still parent-unresolved is resolved again against the entries
known now; a resolved parent is never changed (section 3). Steps 1 to 3 of
section 4.2 (self-chain check, structural check, root fallback) depend on the
Reason-Sequence Table and on the object store, which the specification does
not list; they are the parameter `resolve`. -/
def resolveDeferred
    (resolve : List PendingEntry → List (Nat × Nat) → RawEvent → ParentRef)
    (committed : List (Nat × Nat)) (entries : List PendingEntry) : List PendingEntry :=
  entries.map (fun x =>
    if x.parent = ParentRef.unresolved then
      ⟨x.event, resolve entries committed x.event, x.seq⟩
    else x)

/-- Modelled from the spec: `handleEvent`, the ingestion of one event
(section 4.2): the event enters the pending set, keyed by its effective
timestamp, and it and the entries left unresolved earlier are resolved. -/
def Correlator.handleEvent
    (precedes : RawEvent → RawEvent → Bool)
    (resolve : List PendingEntry → List (Nat × Nat) → RawEvent → ParentRef)
    (c : Correlator) (e : RawEvent) : Correlator :=
  ⟨resolveDeferred resolve c.committed
      (insertByTime precedes ⟨e, ParentRef.unresolved, c.nextSeq⟩ c.pending),
    c.committed, c.exported, c.nextSeq + 1⟩

/-- Modelled from the spec: ingestion of an event that lands on the root
fallback (step 3 of section 4.2, the landing point of the synthesised events
of section 4.3): it goes through the same ingestion path, enters the pending
set with no parent, and the entries left unresolved earlier are resolved
again. -/
def Correlator.handleRoot
    (precedes : RawEvent → RawEvent → Bool)
    (resolve : List PendingEntry → List (Nat × Nat) → RawEvent → ParentRef)
    (c : Correlator) (e : RawEvent) : Correlator :=
  ⟨resolveDeferred resolve c.committed
      (insertByTime precedes ⟨e, ParentRef.root, c.nextSeq⟩ c.pending),
    c.committed, c.exported, c.nextSeq + 1⟩

/-- Modelled from the spec: `checkOlderPending` (section 4.4): every pending
entry older than the threshold that is still parent-unresolved is promoted to
root. The error result for invariant violations is left out: identities are
insertion sequence numbers, and owner chains are not part of this model. -/
def Correlator.checkOlderPending (c : Correlator) (threshold : Nat) : Correlator :=
  ⟨c.pending.map (fun x =>
      if x.event.timestamp < threshold ∧ x.parent = ParentRef.unresolved then
        ⟨x.event, ParentRef.root, x.seq⟩
      else x),
    c.committed, c.exported, c.nextSeq⟩

/-- Modelled from the spec: commitment of one entry (section 4.4): it gets the
next sequential output index, its trace record is emitted, and it is marked
committed. -/
def Correlator.commit (c : Correlator) (x : PendingEntry) (parent : Option Nat) :
    Correlator :=
  ⟨c.pending,
    c.committed ++ [(x.seq, c.exported.length)],
    c.exported ++
      [⟨c.exported.length, x.event.component, x.event.kind, x.event.reason, parent,
        x.event.message⟩],
    c.nextSeq⟩

/-- Modelled from the spec: an entry skipped by a flush stays pending. -/
def Correlator.keep (c : Correlator) (x : PendingEntry) : Correlator :=
  ⟨c.pending ++ [x], c.committed, c.exported, c.nextSeq⟩

/-- Modelled from the spec: what `flushOutgoing` does with one pending entry
(section 4.4): an entry later than the threshold, with an unresolved parent, or
with a parent that is not committed yet is skipped; any other entry is
committed. -/
def Correlator.flushStep (threshold : Nat) (c : Correlator) (x : PendingEntry) :
    Correlator :=
  if x.event.timestamp ≤ threshold then
    match x.parent with
    | ParentRef.unresolved => c.keep x
    | ParentRef.root => c.commit x none
    | ParentRef.entry p =>
      match c.committed.lookup p with
      | none => c.keep x
      | some i => c.commit x (some i)
  else c.keep x

/-- Modelled from the spec: `flushOutgoing` (section 4.4): one scan of the
pending entries in ascending effective-timestamp order. -/
def Correlator.flushOutgoing (c : Correlator) (threshold : Nat) : Correlator :=
  c.pending.foldl (Correlator.flushStep threshold)
    ⟨[], c.committed, c.exported, c.nextSeq⟩

/-- An operation on the Correlator, as the tests and `playback` call them. -/
inductive Op where
  | handleEvent (e : RawEvent)
  | handleRoot (e : RawEvent)
  | checkOlderPending (threshold : Nat)
  | flushOutgoing (threshold : Nat)
deriving DecidableEq, Repr

/-- One operation applied to the Correlator. -/
def Correlator.apply
    (precedes : RawEvent → RawEvent → Bool)
    (resolve : List PendingEntry → List (Nat × Nat) → RawEvent → ParentRef)
    (c : Correlator) : Op → Correlator
  | Op.handleEvent e => c.handleEvent precedes resolve e
  | Op.handleRoot e => c.handleRoot precedes resolve e
  | Op.checkOlderPending t => c.checkOlderPending t
  | Op.flushOutgoing t => c.flushOutgoing t

/-- A sequence of operations applied in order. -/
def Correlator.run
    (precedes : RawEvent → RawEvent → Bool)
    (resolve : List PendingEntry → List (Nat × Nat) → RawEvent → ParentRef)
    (c : Correlator) (ops : List Op) : Correlator :=
  ops.foldl (Correlator.apply precedes resolve) c

/-! ## Properties of exported lists -/

/-- Parent-before-child for a list of exported lines: the line at position `i`
carries index `i`, and a parent index `p` it carries is smaller than its own
index and is the index of a line at an earlier position. -/
def ParentBeforeChild (l : List TraceLine) : Prop :=
  ∀ i, i < l.length → ∀ x ∈ l[i]?, x.index = i ∧
    ∀ p ∈ x.parent, p < x.index ∧ ∃ y ∈ l.take i, y.index = p

instance (l : List TraceLine) : Decidable (ParentBeforeChild l) := by
  unfold ParentBeforeChild; infer_instance

/-! ## Auxiliary definitions for the proofs -/

/-- Test used to look up the first non-Event object with UID `u`. -/
def isObjectWithUID (u : UID) (x : Object) : Bool :=
  decide (x.kind ≠ "Event" ∧ x.uid? = some u)

/-- Invariant of the loop of `getInitialObjects`: `acc` is the map built from the
objects `pre` decoded so far. -/
structure CollectInv (acc : List (UID × Object)) (pre : List Object) : Prop where
  keyed : ∀ kv ∈ acc, kv.2.uid? = some kv.1 ∧ kv.2.kind ≠ "Event"
  nodup : (acc.map Prod.fst).Nodup
  first : ∀ kv ∈ acc, pre.find? (isObjectWithUID kv.1) = some kv.2
  covers : ∀ x ∈ pre, x.kind ≠ "Event" → ∀ u, x.uid? = some u → u ∈ acc.map Prod.fst

/-- The dispatch `playback` makes for a decoded object (playback.go:90-95). -/
def dispatchOf (obj : Object) : Dispatch :=
  if obj.kind = "Event" then Dispatch.handleEvent obj else Dispatch.watcherPlayback obj

/-- State of the watcher after the handler chosen by `playback` for `obj` has
returned; the error the handler returns is dropped. -/
def dispatchOne {Ref W N : Type} [DecidableEq Ref]
    (refFromObject : Option ObjectMeta → Ref) (quoteRef : Ref → String)
    (checkConditionUpdates : W → Object → N → W × N × Option GoError)
    (handleEvent : N → Object → N × Option GoError)
    (r : EventWatcher Ref W N) (obj : Object) : EventWatcher Ref W N :=
  if obj.kind = "Event" then
    ⟨r.Capture, r.watcher, (handleEvent r.core obj).1⟩
  else
    match watchManager.playback refFromObject quoteRef checkConditionUpdates
        r.watcher obj r.core with
    | .returned res => ⟨r.Capture, res.manager, res.notifier⟩
    | .panicked _ => r

/-- The dynamic types `playback` asserts: an object of kind `Event` is a
`*v1.Event`, any other object is an `*unstructured.Unstructured`. -/
def HasAssertedType (o : Object) : Prop :=
  (o.kind = "Event" → o.goType = GoType.event) ∧
    (o.kind ≠ "Event" → o.goType = GoType.unstructured)

instance (o : Object) : Decidable (HasAssertedType o) := by
  unfold HasAssertedType; infer_instance

/-- The three chunks `captureObject` writes for one observed change. -/
def captureFrame {T : Type} (rfc3339 : T → String) (encode : Object → String)
    (c : T × Object) : List String :=
  ["---\n", "# " ++ rfc3339 c.1 ++ "\n", encode c.2]

/-- A Pod snapshot used in the examples. -/
def examplePod : Object :=
  ⟨"Pod", GoType.unstructured, some ⟨"default", "px-1", "uid-pod"⟩, "phase: Pending"⟩

/-- A later snapshot of the same Pod. -/
def examplePodLater : Object :=
  ⟨"Pod", GoType.unstructured, some ⟨"default", "px-1", "uid-pod"⟩, "phase: Running"⟩

/-- An Event used in the examples. -/
def exampleEvent : Object :=
  ⟨"Event", GoType.event, some ⟨"default", "px-1.16", "uid-event"⟩, "reason: Scheduled"⟩

/-- A Deployment snapshot used in the examples. -/
def exampleDeployment : Object :=
  ⟨"Deployment", GoType.unstructured, some ⟨"default", "px", "uid-deploy"⟩, "replicas: 2"⟩

/-- A `v1.Status` document: it decodes with the client-go scheme and has no
object metadata, so `meta.Accessor` fails on it. -/
def exampleStatus : Object :=
  ⟨"Status", GoType.other "*v1.Status", none, "status: Failure"⟩

/-- A Deployment decoded to its typed form `*appsv1.Deployment`. -/
def exampleTypedDeployment : Object :=
  ⟨"Deployment", GoType.other "*appsv1.Deployment", some ⟨"default", "px", "uid-deploy"⟩,
    "replicas: 2"⟩

/-- An Event of the group `events.k8s.io`, decoded to `*eventsv1.Event`: its
kind is `Event` and it is not a `*v1.Event`. -/
def exampleGroupEvent : Object :=
  ⟨"Event", GoType.other "*eventsv1.Event", some ⟨"default", "px-1.17", "uid-event-2"⟩,
    "reason: Pulled"⟩

/-- An Event written without `metadata.uid`. -/
def exampleEventNoUID : Object :=
  ⟨"Event", GoType.event, some ⟨"default", "px-1.16", ""⟩, "reason: Scheduled"⟩

/-- A Pod written without `metadata.uid`. -/
def examplePodNoUID : Object :=
  ⟨"Pod", GoType.unstructured, some ⟨"default", "px-1", ""⟩, "phase: Pending"⟩

/-- Objects of a small capture, in file order. -/
def exampleObjects : List Object :=
  [examplePod, exampleEvent, examplePodLater, exampleDeployment, exampleEvent]

/-- A small capture file whose frames all decode. -/
def exampleFrames : List Frame :=
  [⟨"# 2020-12-01T10:00:00Z", .ok examplePod⟩,
   ⟨"# 2020-12-01T10:00:01Z", .ok exampleEvent⟩,
   ⟨"# 2020-12-01T10:00:02Z", .ok examplePodLater⟩,
   ⟨"# 2020-12-01T10:00:03Z", .ok exampleDeployment⟩,
   ⟨"# 2020-12-01T10:00:04Z", .ok exampleEvent⟩]

/-- The same capture with other observation times. -/
def exampleFramesRestamped : List Frame :=
  [⟨"# 2021-06-01T00:00:00Z", .ok examplePod⟩,
   ⟨"# 2021-06-01T00:00:10Z", .ok exampleEvent⟩,
   ⟨"# 2021-06-01T00:00:20Z", .ok examplePodLater⟩,
   ⟨"# 2021-06-01T00:00:30Z", .ok exampleDeployment⟩,
   ⟨"# 2021-06-01T00:00:40Z", .ok exampleEvent⟩]

/-- A capture whose second frame is a `v1.Status`. -/
def exampleFramesWithStatus : List Frame :=
  [⟨"# 2020-12-01T10:00:00Z", .ok examplePod⟩,
   ⟨"# 2020-12-01T10:00:01Z", .ok exampleStatus⟩,
   ⟨"# 2020-12-01T10:00:02Z", .ok exampleDeployment⟩]

/-- A capture of an Event and a Pod, both written without `metadata.uid`. -/
def exampleFramesNoUID : List Frame :=
  [⟨"# 2020-12-01T10:00:00Z", .ok exampleEventNoUID⟩,
   ⟨"# 2020-12-01T10:00:01Z", .ok examplePodNoUID⟩]

/-- A capture whose first frame is an Event of the group `events.k8s.io`. -/
def exampleFramesGroupEvent : List Frame :=
  [⟨"# 2020-12-01T10:00:00Z", .ok exampleGroupEvent⟩,
   ⟨"# 2020-12-01T10:00:01Z", .ok examplePod⟩]

/-- A capture whose first frame is a typed Deployment. -/
def exampleFramesTyped : List Frame :=
  [⟨"# 2020-12-01T10:00:00Z", .ok exampleTypedDeployment⟩,
   ⟨"# 2020-12-01T10:00:01Z", .ok examplePod⟩]

/-- Reference of an object in the examples: namespace and name of the accessor. -/
def exampleRef : Option ObjectMeta → String
  | some ma => ma.ns ++ "/" ++ ma.name
  | none => ""

/-- A `checkConditionUpdates` for the examples: it counts its calls in the
`watchInfo`, records the object body in the notifier and fails on Pods. -/
def exampleCheck (wi : Nat) (o : Object) (ew : List String) :
    Nat × List String × Option GoError :=
  (wi + 1, ew ++ [o.body], if o.kind = "Pod" then some "conditions: bad pod" else none)

/-- A `handleEvent` for the examples: it records the event and always fails. -/
def exampleHandleEvent (ew : List String) (o : Object) : List String × Option GoError :=
  (ew ++ [o.body], some "event rejected")

/-- A watcher with one watch, on the example Pod, capturing into an empty sink. -/
def exampleWatcher : EventWatcher String Nat (List String) :=
  ⟨some [], ⟨[("default/px-1", 0)]⟩, []⟩

/-- A watcher with watches on the example Pod and on the example Deployment. -/
def exampleWatcherBoth : EventWatcher String Nat (List String) :=
  ⟨some [], ⟨[("default/px-1", 0), ("default/px", 0)]⟩, []⟩

/-- Invariant of the Correlator: the exported list satisfies parent-before-child,
and every index recorded for a committed entry is the index of an exported
line. -/
structure CommitInv (c : Correlator) : Prop where
  ordered : ParentBeforeChild c.exported
  assigned : ∀ kv ∈ c.committed, kv.2 < c.exported.length

/-- A parent resolution for the examples: an event on a Pod is the child of the
pending Deployment event, once that has arrived; any other event is left
unresolved. -/
def exampleResolve (entries : List PendingEntry) (_ : List (Nat × Nat)) (e : RawEvent) :
    ParentRef :=
  if e.kind = "Pod" then
    match entries.find? (fun x => decide (x.event.kind = "Deployment")) with
    | some d => ParentRef.entry d.seq
    | none => ParentRef.unresolved
  else ParentRef.unresolved

/-- An order among equal timestamps for the examples: it leaves every tie open. -/
def examplePrecedes (_ _ : RawEvent) : Bool := false

/-- Operations of a small session: an update event and two Pod events arriving
out of order, then the check and the flush. -/
def exampleOps : List Op :=
  [Op.handleEvent ⟨"kubelet", "Pod", "px-1", "Started", "Started container", 5⟩,
   Op.handleEvent ⟨"flux", "Deployment", "px", "Sync", "Commit e332e7bac962", 1⟩,
   Op.handleEvent ⟨"kubelet", "Pod", "px-1", "Created", "Created container", 4⟩,
   Op.checkOlderPending 20,
   Op.flushOutgoing 20]

/-! # Theorems -/

/-! ## `getInitialObjects` -/

theorem lookup_isSome_iff (acc : List (UID × Object)) (u : UID) :
    (acc.lookup u).isSome ↔ u ∈ acc.map Prod.fst := by
  induction acc with
  | nil => simp
  | cons kv rest ih =>
    obtain ⟨k, v⟩ := kv
    by_cases h : u = k
    · subst h; simp [List.lookup]
    · have h2 : (u == k) = false := by simpa using h
      simp [List.lookup, h2, ih, h]

theorem collectInv_nil : CollectInv [] [] :=
  ⟨by simp, by simp, by simp, by simp⟩

theorem collectInv_skip_event {acc : List (UID × Object)} {pre : List Object} {o : Object}
    (h : CollectInv acc pre) (ho : o.kind = "Event") : CollectInv acc (pre ++ [o]) := by
  refine ⟨h.keyed, h.nodup, ?_, ?_⟩
  · intro kv hkv
    rw [List.find?_append, h.first kv hkv]; rfl
  · intro x hx hk u hu
    rcases List.mem_append.1 hx with hx | hx
    · exact h.covers x hx hk u hu
    · simp at hx; subst hx; exact absurd ho hk

theorem collectInv_skip_seen {acc : List (UID × Object)} {pre : List Object} {o : Object}
    {ma : ObjectMeta} (h : CollectInv acc pre) (hma : o.accessor = some ma)
    (hs : ma.uid ∈ acc.map Prod.fst) : CollectInv acc (pre ++ [o]) := by
  refine ⟨h.keyed, h.nodup, ?_, ?_⟩
  · intro kv hkv
    rw [List.find?_append, h.first kv hkv]; rfl
  · intro x hx hk u hu
    rcases List.mem_append.1 hx with hx | hx
    · exact h.covers x hx hk u hu
    · simp at hx; subst hx
      simp [Object.uid?, hma] at hu
      subst hu; exact hs

theorem collectInv_add {acc : List (UID × Object)} {pre : List Object} {o : Object}
    {ma : ObjectMeta} (h : CollectInv acc pre) (hma : o.accessor = some ma)
    (ho : o.kind ≠ "Event") (hs : ma.uid ∉ acc.map Prod.fst) :
    CollectInv (acc ++ [(ma.uid, o)]) (pre ++ [o]) := by
  have huid : o.uid? = some ma.uid := by simp [Object.uid?, hma]
  refine ⟨?_, ?_, ?_, ?_⟩
  · intro kv hkv
    rcases List.mem_append.1 hkv with hkv | hkv
    · exact h.keyed kv hkv
    · simp at hkv; subst hkv; exact ⟨huid, ho⟩
  · rw [List.map_append, List.nodup_append]
    refine ⟨h.nodup, by simp, ?_⟩
    intro a ha hb
    simp at hb; subst hb; exact hs ha
  · intro kv hkv
    rcases List.mem_append.1 hkv with hkv | hkv
    · rw [List.find?_append, h.first kv hkv]; rfl
    · simp at hkv; subst hkv
      have hnone : pre.find? (isObjectWithUID ma.uid) = none := by
        rw [List.find?_eq_none]
        intro x hx hp
        simp [isObjectWithUID] at hp
        exact hs (h.covers x hx hp.1 ma.uid hp.2)
      rw [List.find?_append, hnone]
      simp [isObjectWithUID, ho, huid]
  · intro x hx hk u hu
    rw [List.map_append, List.mem_append]
    rcases List.mem_append.1 hx with hx | hx
    · exact Or.inl (h.covers x hx hk u hu)
    · simp at hx; subst hx
      rw [huid] at hu
      have : ma.uid = u := Option.some.inj hu
      subst this
      exact Or.inr (by simp)

theorem getInitialObjectsLoop_decoded (objs : List Object) :
    ∀ (frames : List Frame) (pre : List Object) (acc : List (UID × Object)) (out : List String),
      frames.map Frame.doc = objs.map Except.ok →
      (∀ o ∈ objs, o.kind ≠ "Event" → o.accessor ≠ none) →
      CollectInv acc pre →
      ∃ out1 acc1, getInitialObjectsLoop frames acc out = (out1, .returned (.ok acc1)) ∧
        CollectInv acc1 (pre ++ objs) := by
  induction objs with
  | nil =>
    intro frames pre acc out hf _ hinv
    have : frames = [] := by simpa using hf
    subst this
    exact ⟨out, acc, rfl, by simpa using hinv⟩
  | cons o rest ih =>
    intro frames pre acc out hf hmeta hinv
    have hmeta1 : ∀ x ∈ rest, x.kind ≠ "Event" → x.accessor ≠ none :=
      fun x hx => hmeta x (List.mem_cons_of_mem _ hx)
    cases frames with
    | nil => simp at hf
    | cons f fs =>
      simp only [List.map_cons, List.cons.injEq] at hf
      obtain ⟨hdoc, hrest⟩ := hf
      have happ : pre ++ o :: rest = (pre ++ [o]) ++ rest := by simp
      rw [happ]
      unfold getInitialObjectsLoop
      rw [hdoc]
      by_cases hk : o.kind = "Event"
      · simp only [hk, if_true]
        exact ih fs _ acc out hrest hmeta1 (collectInv_skip_event hinv hk)
      · simp only [hk, if_false]
        cases hma : o.accessor with
        | none => exact absurd hma (hmeta o (List.mem_cons_self _ _) hk)
        | some ma =>
          simp only
          by_cases hs : (acc.lookup ma.uid).isSome
          · simp only [hs, if_true]
            exact ih fs _ acc out hrest hmeta1
              (collectInv_skip_seen hinv hma ((lookup_isSome_iff acc ma.uid).1 hs))
          · simp only [hs]
            exact ih fs _ _ _ hrest hmeta1
              (collectInv_add hinv hma hk
                (fun h => hs ((lookup_isSome_iff acc ma.uid).2 h)))

theorem find?_congr_mem {α : Type} (p q : α → Bool) :
    ∀ l : List α, (∀ x ∈ l, p x = q x) → l.find? p = l.find? q := by
  intro l
  induction l with
  | nil => intro _; rfl
  | cons a rest ih =>
    intro h
    simp only [List.find?_cons, h a (List.mem_cons_self _ _)]
    rw [ih (fun x hx => h x (List.mem_cons_of_mem _ hx))]

/-- C9 as worded fails in two places. A capture whose frames all decode and whose
second frame is a `v1.Status`, a document without object metadata, makes
`getInitialObjects` panic at `ma.GetUID()`: no list is returned. And of an
Event and a Pod written without `metadata.uid`, the Pod is returned, while
the first frame in file order that carries that UID is the Event. -/
theorem getInitialObjects_panics_without_metadata :
    (exampleFramesWithStatus.map Frame.doc =
        [examplePod, exampleStatus, exampleDeployment].map Except.ok ∧
      (getInitialObjects id (.ok exampleFramesWithStatus)).2 = .panicked nilAccessorPanic ∧
      ¬ ∃ ret, (getInitialObjects id (.ok exampleFramesWithStatus)).2 = .returned (.ok ret)) ∧
    (exampleFramesNoUID.map Frame.doc = [exampleEventNoUID, examplePodNoUID].map Except.ok ∧
      (getInitialObjects id (.ok exampleFramesNoUID)).2 = .returned (.ok [examplePodNoUID]) ∧
      [exampleEventNoUID, examplePodNoUID].find? (fun x => decide (x.uid? = examplePodNoUID.uid?))
        = some exampleEventNoUID ∧
      exampleEventNoUID ≠ examplePodNoUID) := by
  refine ⟨⟨rfl, rfl, ?_⟩, rfl, rfl, by decide, by decide⟩
  rintro ⟨ret, h⟩
  have h2 : (getInitialObjects id (.ok exampleFramesWithStatus)).2
      = .panicked nilAccessorPanic := rfl
  rw [h2] at h
  cases h

/-- C9, amended: on a capture file whose frames all decode and whose non-Event
frames all have object metadata, `getInitialObjects` returns without error a
list that (a) holds no object of kind `Event`, (b) holds one object for each
distinct UID carried by a non-Event frame: the UIDs of the returned objects
are pairwise distinct, they are exactly the UIDs of the non-Event frames, and
the length of the list is the number of distinct UIDs, and (c) holds, for each
UID, the first non-Event frame in file order with that UID, which is the
first frame of all with that UID when no Event shares a UID with another
object. The order of the returned list is the iteration order of the map. -/
theorem getInitialObjects_first_per_uid
    (iter : List (UID × Object) → List (UID × Object))
    (hiter : ∀ l, (iter l).Perm l)
    (frames : List Frame) (objs : List Object)
    (hdec : frames.map Frame.doc = objs.map Except.ok)
    (hmeta : ∀ o ∈ objs, o.kind ≠ "Event" → o.accessor ≠ none) :
    ∃ ret, (getInitialObjects iter (.ok frames)).2 = .returned (.ok ret) ∧
      (∀ o ∈ ret, o.kind ≠ "Event") ∧
      (ret.map Object.uid?).Nodup ∧
      (∀ u, some u ∈ ret.map Object.uid? ↔ ∃ x ∈ objs, x.kind ≠ "Event" ∧ x.uid? = some u) ∧
      ret.length =
        (((objs.filter (fun x => decide (x.kind ≠ "Event"))).map Object.uid?).dedup).length ∧
      (∀ o ∈ ret, ∃ u, o.uid? = some u ∧ objs.find? (isObjectWithUID u) = some o) ∧
      ((∀ e ∈ objs, e.kind = "Event" → ∀ x ∈ objs, x.kind ≠ "Event" → e.uid? ≠ x.uid?) →
        ∀ o ∈ ret, objs.find? (fun x => decide (x.uid? = o.uid?)) = some o) := by
  obtain ⟨out1, acc1, hloop, hinv⟩ :=
    getInitialObjectsLoop_decoded objs frames [] [] [] hdec hmeta collectInv_nil
  simp only [List.nil_append] at hinv
  have hperm := hiter acc1
  have hkeys : ((iter acc1).map Prod.snd).map Object.uid?
      = ((iter acc1).map Prod.fst).map some := by
    rw [List.map_map, List.map_map]
    apply List.map_congr_left
    intro kv hkv
    exact (hinv.keyed kv (hperm.mem_iff.1 hkv)).1
  have hnodup : (((iter acc1).map Prod.snd).map Object.uid?).Nodup := by
    rw [hkeys]
    exact ((hperm.map Prod.fst).nodup_iff.2 hinv.nodup).map (Option.some_injective _)
  have hmem : ∀ u, some u ∈ ((iter acc1).map Prod.snd).map Object.uid? ↔
      ∃ x ∈ objs, x.kind ≠ "Event" ∧ x.uid? = some u := by
    intro u
    rw [hkeys, List.mem_map_of_injective (Option.some_injective _),
      (hperm.map Prod.fst).mem_iff]
    constructor
    · intro hu
      obtain ⟨kv, hkv, rfl⟩ := List.mem_map.1 hu
      have hf := hinv.first kv hkv
      have hin := List.mem_of_find?_eq_some hf
      have hp := List.find?_some hf
      simp [isObjectWithUID] at hp
      exact ⟨kv.2, hin, hp.1, hp.2⟩
    · rintro ⟨x, hx, hk, hu⟩
      exact hinv.covers x hx hk u hu
  have hfirst : ∀ o ∈ (iter acc1).map Prod.snd,
      ∃ u, o.uid? = some u ∧ objs.find? (isObjectWithUID u) = some o := by
    intro o ho
    obtain ⟨kv, hkv, rfl⟩ := List.mem_map.1 ho
    have hkv1 := hperm.mem_iff.1 hkv
    exact ⟨kv.1, (hinv.keyed kv hkv1).1, hinv.first kv hkv1⟩
  refine ⟨(iter acc1).map Prod.snd, ?_, ?_, hnodup, hmem, ?_, hfirst, ?_⟩
  · simp [getInitialObjects, hloop]
  · intro o ho
    obtain ⟨kv, hkv, rfl⟩ := List.mem_map.1 ho
    exact (hinv.keyed kv (hperm.mem_iff.1 hkv)).2
  · rw [← List.length_map ((iter acc1).map Prod.snd) Object.uid?]
    apply List.Perm.length_eq
    rw [List.perm_ext_iff_of_nodup hnodup (List.nodup_dedup _)]
    intro v
    have hright : v ∈ ((objs.filter (fun x => decide (x.kind ≠ "Event"))).map
        Object.uid?).dedup ↔ ∃ x ∈ objs, x.kind ≠ "Event" ∧ x.uid? = v := by
      rw [List.mem_dedup]
      constructor
      · intro hv
        obtain ⟨x, hx, hxv⟩ := List.mem_map.1 hv
        have hx2 := List.mem_filter.1 hx
        exact ⟨x, hx2.1, by simpa using hx2.2, hxv⟩
      · rintro ⟨x, hx, hk, hxv⟩
        exact List.mem_map.2 ⟨x, List.mem_filter.2 ⟨hx, by simpa using hk⟩, hxv⟩
    rw [hright]
    cases v with
    | none =>
      constructor
      · intro hv
        rw [hkeys] at hv
        simp at hv
      · rintro ⟨x, hx, hk, hu⟩
        exfalso
        apply hmeta x hx hk
        simpa [Object.uid?] using hu
    | some u => exact hmem u
  · intro hsep o ho
    obtain ⟨u, hu, hf⟩ := hfirst o ho
    have hin := List.mem_of_find?_eq_some hf
    have hp := List.find?_some hf
    simp [isObjectWithUID] at hp
    rw [← hf]
    apply find?_congr_mem
    intro x hx
    by_cases hk : x.kind = "Event"
    · have hne := hsep x hx hk o hin hp.1
      simp [isObjectWithUID, hk, hne]
    · simp [isObjectWithUID, hk, hu]

/-- C9, amended, at the example capture: of two Pod snapshots, two Events and a
Deployment, the first Pod snapshot and the Deployment are returned. -/
theorem getInitialObjects_first_per_uid_witness :
    ∃ ret, (getInitialObjects List.reverse (.ok exampleFrames)).2 = .returned (.ok ret) ∧
      ret = [exampleDeployment, examplePod] ∧
      (∀ o ∈ ret, o.kind ≠ "Event") ∧ (ret.map Object.uid?).Nodup ∧ ret.length = 2 := by
  obtain ⟨ret, h, ha, hb, _, hlen, _, _⟩ :=
    getInitialObjects_first_per_uid List.reverse (fun l => List.reverse_perm l)
      exampleFrames exampleObjects rfl (by decide)
  have hret : ret = [exampleDeployment, examplePod] := by
    have h2 : (getInitialObjects List.reverse (.ok exampleFrames)).2
        = .returned (.ok [exampleDeployment, examplePod]) := rfl
    rw [h2] at h
    exact (Except.ok.inj (Run.returned.inj h)).symm
  exact ⟨ret, h, hret, ha, hb, by rw [hret]; rfl⟩

theorem getInitialObjectsLoop_stamps :
    ∀ (f1 f2 : List Frame) (acc : List (UID × Object)) (out : List String),
      f1.map Frame.doc = f2.map Frame.doc →
      getInitialObjectsLoop f1 acc out = getInitialObjectsLoop f2 acc out := by
  intro f1
  induction f1 with
  | nil =>
    intro f2 acc out h
    have : f2 = [] := by simpa using h.symm
    subst this; rfl
  | cons a as ih =>
    intro f2 acc out h
    cases f2 with
    | nil => simp at h
    | cons b bs =>
      simp only [List.map_cons, List.cons.injEq] at h
      obtain ⟨hd, hr⟩ := h
      unfold getInitialObjectsLoop
      rw [hd]
      cases hb : b.doc with
      | error e => rfl
      | ok obj =>
        simp only
        split
        · exact ih bs _ _ hr
        · cases obj.accessor with
          | none => rfl
          | some ma =>
            simp only
            split
            · exact ih bs _ _ hr
            · exact ih bs _ _ hr

/-- C6: `getInitialObjects` of playback.go returns two results, the objects and
an error, and neither depends on the observation times of the capture file:
two files that differ only in the timestamp comments of their frames give the
same results, so no maximum timestamp can be read off them. -/
theorem getInitialObjects_ignores_stamps
    (iter : List (UID × Object) → List (UID × Object)) (f1 f2 : List Frame)
    (h : f1.map Frame.doc = f2.map Frame.doc) :
    getInitialObjects iter (.ok f1) = getInitialObjects iter (.ok f2) := by
  simp only [getInitialObjects, getInitialObjectsLoop_stamps f1 f2 [] [] h]

/-- C6, at the example capture and the same capture observed half a year later:
the latest timestamps differ, the results do not. -/
theorem getInitialObjects_ignores_stamps_witness :
    exampleFrames.map Frame.stamp ≠ exampleFramesRestamped.map Frame.stamp ∧
    getInitialObjects id (.ok exampleFrames) =
      getInitialObjects id (.ok exampleFramesRestamped) :=
  ⟨by decide, getInitialObjects_ignores_stamps id exampleFrames exampleFramesRestamped rfl⟩

/-! ## `watchManager.playback` -/

theorem store_keys {Ref W : Type} [DecidableEq Ref] (m : watchManager Ref W) (ref : Ref)
    (wi : W) : (m.store ref wi).watches.map Prod.fst = m.watches.map Prod.fst := by
  unfold watchManager.store
  simp only [List.map_map]
  apply List.map_congr_left
  intro kv _
  by_cases h : kv.1 = ref <;> simp [h]

theorem watchManager_playback_unstructured {Ref W N : Type} [DecidableEq Ref]
    (refFromObject : Option ObjectMeta → Ref) (quoteRef : Ref → String)
    (checkConditionUpdates : W → Object → N → W × N × Option GoError)
    (m : watchManager Ref W) (obj : Object) (ew : N)
    (ht : obj.goType = GoType.unstructured) :
    ∃ res, watchManager.playback refFromObject quoteRef checkConditionUpdates m obj ew
      = .returned res := by
  cases hl : m.watches.lookup (refFromObject obj.accessor) with
  | none =>
    exact ⟨⟨m, ew, [], some ("watcher not found for object " ++
      quoteRef (refFromObject obj.accessor))⟩, by simp [watchManager.playback, hl]⟩
  | some wi =>
    exact ⟨⟨m.store (refFromObject obj.accessor) (checkConditionUpdates wi obj ew).1,
      (checkConditionUpdates wi obj ew).2.1, [(wi, obj)],
      (checkConditionUpdates wi obj ew).2.2⟩, by simp [watchManager.playback, hl, ht]⟩

/-- C10 as worded fails when a watch is registered and the object is not an
`*unstructured.Unstructured`: for the typed Deployment, whose reference has a
watch, the assertion at playback.go:111 panics, so `checkConditionUpdates` is
not called and nothing is returned. -/
theorem watchManager_playback_panics_on_typed_object :
    exampleWatcherBoth.watcher.watches.lookup (exampleRef exampleTypedDeployment.accessor)
      = some 0 ∧
    watchManager.playback exampleRef id exampleCheck exampleWatcherBoth.watcher
        exampleTypedDeployment ([] : List String)
      = .panicked (assertionPanic "*unstructured.Unstructured") ∧
    ¬ ∃ res, watchManager.playback exampleRef id exampleCheck exampleWatcherBoth.watcher
        exampleTypedDeployment ([] : List String) = .returned res := by
  refine ⟨by decide, rfl, ?_⟩
  rintro ⟨res, h⟩
  have h2 : watchManager.playback exampleRef id exampleCheck exampleWatcherBoth.watcher
      exampleTypedDeployment ([] : List String)
      = .panicked (assertionPanic "*unstructured.Unstructured") := rfl
  rw [h2] at h
  cases h

/-- C10, amended: `watchManager.playback` returns by the not-found path (no call
of `checkConditionUpdates`, the error `watcher not found for object <ref>`,
manager and notifier unchanged) exactly when no watch is registered under the
reference derived from the object; when a watch is registered and the object
is an `*unstructured.Unstructured`, it calls the `checkConditionUpdates` of
that watch once, with the object, and returns the error of that call
unchanged, the keys of the watches map staying the same. -/
theorem watchManager_playback_dispatch {Ref W N : Type} [DecidableEq Ref]
    (refFromObject : Option ObjectMeta → Ref) (quoteRef : Ref → String)
    (checkConditionUpdates : W → Object → N → W × N × Option GoError)
    (m : watchManager Ref W) (obj : Object) (ew : N) :
    ((∃ res, watchManager.playback refFromObject quoteRef checkConditionUpdates m obj ew
          = .returned res ∧
        res.calls = [] ∧
        res.err = some ("watcher not found for object " ++
          quoteRef (refFromObject obj.accessor)) ∧
        res.manager = m ∧ res.notifier = ew)
      ↔ m.watches.lookup (refFromObject obj.accessor) = none) ∧
    (∀ wi, m.watches.lookup (refFromObject obj.accessor) = some wi →
      obj.goType = GoType.unstructured →
      ∃ res, watchManager.playback refFromObject quoteRef checkConditionUpdates m obj ew
          = .returned res ∧
        res.calls = [(wi, obj)] ∧
        res.err = (checkConditionUpdates wi obj ew).2.2 ∧
        res.notifier = (checkConditionUpdates wi obj ew).2.1 ∧
        res.manager = m.store (refFromObject obj.accessor) (checkConditionUpdates wi obj ew).1 ∧
        res.manager.watches.map Prod.fst = m.watches.map Prod.fst) := by
  constructor
  · constructor
    · rintro ⟨res, hres, hcalls, -⟩
      cases hl : m.watches.lookup (refFromObject obj.accessor) with
      | none => rfl
      | some wi =>
        exfalso
        unfold watchManager.playback at hres
        simp only [hl] at hres
        split at hres
        · have := Run.returned.inj hres
          rw [← this] at hcalls
          simp at hcalls
        · cases hres
    · intro hl
      refine ⟨⟨m, ew, [], _⟩, ?_, rfl, rfl, rfl, rfl⟩
      simp [watchManager.playback, hl]
  · intro wi hl ht
    refine ⟨⟨m.store (refFromObject obj.accessor) (checkConditionUpdates wi obj ew).1,
      (checkConditionUpdates wi obj ew).2.1, [(wi, obj)],
      (checkConditionUpdates wi obj ew).2.2⟩, ?_, rfl, rfl, rfl, rfl, store_keys _ _ _⟩
    simp [watchManager.playback, hl, ht]

/-- C10, amended, at the example watcher: the registered Pod, an
`*unstructured.Unstructured`, is checked once and the error of the check is
returned; the Deployment has no watch and gets the not-found error. -/
theorem watchManager_playback_dispatch_witness :
    (∃ res, watchManager.playback exampleRef id exampleCheck exampleWatcher.watcher
          examplePod ([] : List String) = .returned res ∧
        res.calls = [(0, examplePod)] ∧ res.err = some "conditions: bad pod") ∧
    (∃ res, watchManager.playback exampleRef id exampleCheck exampleWatcher.watcher
          exampleDeployment ([] : List String) = .returned res ∧
        res.err = some "watcher not found for object default/px") := by
  refine ⟨?_, ?_⟩
  · obtain ⟨res, h, hc, he, _⟩ := (watchManager_playback_dispatch exampleRef id exampleCheck
      exampleWatcher.watcher examplePod ([] : List String)).2 0 (by decide) (by decide)
    exact ⟨res, h, hc, he⟩
  · obtain ⟨res, h, _, he, _⟩ := (watchManager_playback_dispatch exampleRef id exampleCheck
      exampleWatcher.watcher exampleDeployment ([] : List String)).1.2 (by decide)
    exact ⟨res, h, he⟩

/-! ## `playback` -/

theorem playbackLoop_decoded {Ref W N : Type} [DecidableEq Ref]
    (refFromObject : Option ObjectMeta → Ref) (quoteRef : Ref → String)
    (checkConditionUpdates : W → Object → N → W × N × Option GoError)
    (handleEvent : N → Object → N × Option GoError) (objs : List Object) :
    ∀ (frames : List Frame) (s : PlaybackState Ref W N),
      frames.map Frame.doc = objs.map Except.ok →
      (∀ o ∈ objs, HasAssertedType o) →
      (playbackLoop refFromObject quoteRef checkConditionUpdates handleEvent frames s).dispatched
          = s.dispatched ++ objs.map dispatchOf ∧
        (playbackLoop refFromObject quoteRef checkConditionUpdates handleEvent frames s).panicMsg
          = s.panicMsg ∧
        (playbackLoop refFromObject quoteRef checkConditionUpdates handleEvent frames s).r
          = objs.foldl
              (dispatchOne refFromObject quoteRef checkConditionUpdates handleEvent) s.r := by
  induction objs with
  | nil =>
    intro frames s hf _
    have : frames = [] := by simpa using hf
    subst this
    simp [playbackLoop]
  | cons o rest ih =>
    intro frames s hf ht
    have ht1 : ∀ x ∈ rest, HasAssertedType x := fun x hx => ht x (List.mem_cons_of_mem _ hx)
    have hto := ht o (List.mem_cons_self _ _)
    cases frames with
    | nil => simp at hf
    | cons f fs =>
      simp only [List.map_cons, List.cons.injEq] at hf
      obtain ⟨hdoc, hrest⟩ := hf
      unfold playbackLoop
      rw [hdoc]
      by_cases hk : o.kind = "Event"
      · simp only [hk, if_true, hto.1 hk]
        have h := ih fs
          ⟨⟨s.r.Capture, s.r.watcher, (handleEvent s.r.core o).1⟩,
            printHandlerError s.out (handleEvent s.r.core o).2,
            s.dispatched ++ [Dispatch.handleEvent o], s.panicMsg⟩ hrest ht1
        simpa [dispatchOf, dispatchOne, hk] using h
      · simp only [hk, if_false]
        obtain ⟨res, hres⟩ := watchManager_playback_unstructured refFromObject quoteRef
          checkConditionUpdates s.r.watcher o s.r.core (hto.2 hk)
        rw [hres]
        have h := ih fs
          ⟨⟨s.r.Capture, res.manager, res.notifier⟩, printHandlerError s.out res.err,
            s.dispatched ++ [Dispatch.watcherPlayback o], s.panicMsg⟩ hrest ht1
        simpa [dispatchOf, dispatchOne, hk, hres] using h

/-- C4 as worded fails on capture files whose frames all decode. A frame of kind
`Event` that is not a `*v1.Event` makes the assertion at playback.go:92 panic
before `handleEvent` is called: neither that frame nor the Pod after it is
dispatched. A typed Deployment with a registered watch is dispatched to
`watchManager.playback`, which panics at playback.go:111: the Pod after it is
never dispatched. -/
theorem playback_panics_on_unasserted_type :
    (exampleFramesGroupEvent.map Frame.doc = [exampleGroupEvent, examplePod].map Except.ok ∧
      (playback exampleRef id exampleCheck exampleHandleEvent id exampleWatcherBoth
          "capture.yaml" (.ok exampleFramesGroupEvent)).dispatched = [] ∧
      (playback exampleRef id exampleCheck exampleHandleEvent id exampleWatcherBoth
          "capture.yaml" (.ok exampleFramesGroupEvent)).panicMsg
        = some (assertionPanic "*v1.Event")) ∧
    (exampleFramesTyped.map Frame.doc = [exampleTypedDeployment, examplePod].map Except.ok ∧
      (playback exampleRef id exampleCheck exampleHandleEvent id exampleWatcherBoth
          "capture.yaml" (.ok exampleFramesTyped)).dispatched
        = [Dispatch.watcherPlayback exampleTypedDeployment] ∧
      (playback exampleRef id exampleCheck exampleHandleEvent id exampleWatcherBoth
          "capture.yaml" (.ok exampleFramesTyped)).panicMsg
        = some (assertionPanic "*unstructured.Unstructured")) := by
  refine ⟨⟨rfl, ?_, ?_⟩, rfl, ?_, ?_⟩ <;> decide

/-- C4, amended: on a capture file whose frames all decode, each frame of kind
`Event` to a `*v1.Event` and each other frame to an
`*unstructured.Unstructured`, `playback` does not panic and dispatches every
frame once and in file order, a frame of kind `Event` to `handleEvent` and any
other frame to `watchManager.playback`, whatever the handlers return: the list
of dispatches is determined by the frames alone, and the watcher ends in the
state reached by running the chosen handler on every frame in turn. -/
theorem playback_dispatches_every_frame {Ref W N : Type} [DecidableEq Ref]
    (refFromObject : Option ObjectMeta → Ref) (quoteRef : Ref → String)
    (checkConditionUpdates : W → Object → N → W × N × Option GoError)
    (handleEvent : N → Object → N × Option GoError)
    (quoteName : String → String)
    (r : EventWatcher Ref W N) (filename : String)
    (frames : List Frame) (objs : List Object)
    (hdec : frames.map Frame.doc = objs.map Except.ok)
    (htyped : ∀ o ∈ objs, HasAssertedType o) :
    (playback refFromObject quoteRef checkConditionUpdates handleEvent quoteName r filename
        (.ok frames)).dispatched
      = objs.map (fun o =>
          if o.kind = "Event" then Dispatch.handleEvent o else Dispatch.watcherPlayback o) ∧
    (playback refFromObject quoteRef checkConditionUpdates handleEvent quoteName r filename
        (.ok frames)).panicMsg = none ∧
    (playback refFromObject quoteRef checkConditionUpdates handleEvent quoteName r filename
        (.ok frames)).r
      = objs.foldl (dispatchOne refFromObject quoteRef checkConditionUpdates handleEvent) r := by
  have h := playbackLoop_decoded refFromObject quoteRef checkConditionUpdates handleEvent
    objs frames ⟨r, [], [], none⟩ hdec htyped
  simp only [playback]
  refine ⟨?_, h.2.1, h.2.2⟩
  rw [h.1]
  simp only [List.nil_append]
  rfl

/-- C4, amended, at the example capture: the handlers fail on every frame but the
Deployment, which has no watch, and all five frames are dispatched, in file
order. -/
theorem playback_dispatches_every_frame_witness :
    (playback exampleRef id exampleCheck exampleHandleEvent id exampleWatcher "capture.yaml"
        (.ok exampleFrames)).dispatched
      = [Dispatch.watcherPlayback examplePod, Dispatch.handleEvent exampleEvent,
         Dispatch.watcherPlayback examplePodLater, Dispatch.watcherPlayback exampleDeployment,
         Dispatch.handleEvent exampleEvent] ∧
    (playback exampleRef id exampleCheck exampleHandleEvent id exampleWatcher "capture.yaml"
        (.ok exampleFrames)).out
      = ["error: conditions: bad pod", "error: event rejected", "error: conditions: bad pod",
         "error: watcher not found for object default/px",
         "error: event rejected"] :=
  ⟨(playback_dispatches_every_frame exampleRef id exampleCheck exampleHandleEvent id
      exampleWatcher "capture.yaml" exampleFrames exampleObjects rfl (by decide)).1, by decide⟩

/-! ## `captureObject` -/

theorem captureAll_nil_sink {Ref W N T : Type}
    (rfc3339 : T → String) (encode : Object → String) (changes : List (T × Object)) :
    ∀ (r : EventWatcher Ref W N), r.Capture = none →
      r.captureAll rfc3339 encode changes = r := by
  induction changes with
  | nil => intro r _; rfl
  | cons c rest ih =>
    intro r h
    have h1 : r.captureObject rfc3339 encode c.1 c.2 = r := by
      simp [EventWatcher.captureObject, h]
    simp only [EventWatcher.captureAll, List.foldl_cons, h1]
    exact ih r h

theorem captureAll_sink {Ref W N T : Type}
    (rfc3339 : T → String) (encode : Object → String) (changes : List (T × Object)) :
    ∀ (r : EventWatcher Ref W N) (sink : List String), r.Capture = some sink →
      r.captureAll rfc3339 encode changes =
        ⟨some (sink ++ (changes.map (captureFrame rfc3339 encode)).flatten), r.watcher, r.core⟩ := by
  induction changes with
  | nil =>
    intro r sink h
    cases r
    simp_all [EventWatcher.captureAll]
  | cons c rest ih =>
    intro r sink h
    simp only [EventWatcher.captureAll, List.foldl_cons]
    have h1 : (r.captureObject rfc3339 encode c.1 c.2).Capture
        = some (sink ++ captureFrame rfc3339 encode c) := by
      simp [EventWatcher.captureObject, h, captureFrame]
    have h2 := ih (r.captureObject rfc3339 encode c.1 c.2) _ h1
    simp only [EventWatcher.captureAll] at h2
    rw [h2]
    simp [EventWatcher.captureObject, h, List.append_assoc]

theorem join_captureFrame_length {T : Type}
    (rfc3339 : T → String) (encode : Object → String) (changes : List (T × Object)) :
    ((changes.map (captureFrame rfc3339 encode)).flatten).length = 3 * changes.length := by
  induction changes with
  | nil => rfl
  | cons c rest ih =>
    simp only [List.map_cons, List.flatten_cons, List.length_append, ih, List.length_cons]
    simp [captureFrame]; omega

theorem join_captureFrame_get {T : Type}
    (rfc3339 : T → String) (encode : Object → String) :
    ∀ (changes : List (T × Object)) (i : Nat) (c : T × Object), changes[i]? = some c →
      ((changes.map (captureFrame rfc3339 encode)).flatten)[3 * i]? = some "---\n" ∧
      ((changes.map (captureFrame rfc3339 encode)).flatten)[3 * i + 1]?
        = some ("# " ++ rfc3339 c.1 ++ "\n") ∧
      ((changes.map (captureFrame rfc3339 encode)).flatten)[3 * i + 2]? = some (encode c.2) := by
  intro changes
  induction changes with
  | nil => intro i c h; simp at h
  | cons d rest ih =>
    intro i c h
    cases i with
    | zero =>
      simp at h; subst h
      simp [captureFrame]
    | succ j =>
      simp only [List.getElem?_cons_succ] at h
      have hj := ih j c h
      have e0 : 3 * (j + 1) = (3 * j) + 3 := by omega
      have e1 : 3 * (j + 1) + 1 = (3 * j + 1) + 3 := by omega
      have e2 : 3 * (j + 1) + 2 = (3 * j + 2) + 3 := by omega
      simp only [List.map_cons, List.flatten_cons, captureFrame, List.cons_append,
        List.nil_append, e0, e1, e2, List.getElem?_cons_succ]
      exact hj

/-- C5: `captureObject` leaves the watcher as it is, writing nothing, when the
`Capture` sink is nil. When the sink is set, one call appends one frame to it:
the line `---`, the line `# ` followed by the observation time in RFC3339
format, and the encoded object, in this order. A capture of `n` observed
changes is therefore the sequence of `n` such frames: `3 * n` chunks, the
chunks at positions `3 * i`, `3 * i + 1` and `3 * i + 2` being the separator
line, the timestamp line and the encoded object of change `i`. -/
theorem captureObject_framing {Ref W N T : Type}
    (rfc3339 : T → String) (encode : Object → String) (r : EventWatcher Ref W N) :
    (r.Capture = none →
      (∀ now obj, r.captureObject rfc3339 encode now obj = r) ∧
      (∀ changes, r.captureAll rfc3339 encode changes = r)) ∧
    (∀ sink, r.Capture = some sink →
      (∀ now obj, r.captureObject rfc3339 encode now obj =
        ⟨some (sink ++ ["---\n", "# " ++ rfc3339 now ++ "\n", encode obj]),
          r.watcher, r.core⟩) ∧
      (∀ changes : List (T × Object),
        ∃ written, (r.captureAll rfc3339 encode changes).Capture = some (sink ++ written) ∧
          written = (changes.map (captureFrame rfc3339 encode)).flatten ∧
          written.length = 3 * changes.length ∧
          ∀ i c, changes[i]? = some c →
            written[3 * i]? = some "---\n" ∧
            written[3 * i + 1]? = some ("# " ++ rfc3339 c.1 ++ "\n") ∧
            written[3 * i + 2]? = some (encode c.2))) := by
  refine ⟨fun h => ⟨?_, fun changes => captureAll_nil_sink rfc3339 encode changes r h⟩,
    fun sink h => ⟨?_, ?_⟩⟩
  · intro now obj
    simp [EventWatcher.captureObject, h]
  · intro now obj
    simp [EventWatcher.captureObject, h]
  · intro changes
    refine ⟨_, ?_, rfl, join_captureFrame_length rfc3339 encode changes,
      join_captureFrame_get rfc3339 encode changes⟩
    rw [captureAll_sink rfc3339 encode changes r sink h]

/-- C5, at the example watcher, whose sink is set and empty: capturing the Pod and
then the Event writes two frames. -/
theorem captureObject_framing_witness :
    (exampleWatcher.captureAll id Object.body
        [("2020-12-01T10:00:00Z", examplePod), ("2020-12-01T10:00:01Z", exampleEvent)]).Capture
      = some ["---\n", "# 2020-12-01T10:00:00Z\n", "phase: Pending",
              "---\n", "# 2020-12-01T10:00:01Z\n", "reason: Scheduled"] := by
  obtain ⟨written, h1, h2, _⟩ := ((captureObject_framing id Object.body exampleWatcher).2 []
    rfl).2 [("2020-12-01T10:00:00Z", examplePod), ("2020-12-01T10:00:01Z", exampleEvent)]
  rw [h1, h2]
  decide

/-! ## Expected traces as text -/

theorem trace_scaledownLater_render :
    trace_scaledownLater.map TraceLine.render = wantTraces_scaledownLater := by decide

theorem trace_scaledownEarlier_render :
    trace_scaledownEarlier.map TraceLine.render = wantTraces_scaledownEarlier := by decide

theorem trace_straight_render :
    trace_straight.map TraceLine.render = wantTraces_straight := by decide

theorem trace_fluxEventLater_render :
    trace_fluxEventLater.map TraceLine.render = wantTraces_fluxEventLater := by decide

theorem trace_fluxSts_render :
    trace_fluxSts.map TraceLine.render = wantTraces_fluxSts := by decide

theorem trace_testPlayback_render :
    trace_testPlayback.map TraceLine.render = wantTraces_testPlayback := by decide

/-- The two tested arrival orders of `TestDeploymentRolloutWithManagedFields` are
required to export the same ten lines. -/
theorem wantTraces_tested_orders_agree :
    wantTraces_scaledownLater = wantTraces_scaledownEarlier ∧
      wantTraces_scaledownLater.length = 10 := by decide

/-! ## Parent-before-child -/

theorem parentBeforeChild_nil : ParentBeforeChild [] := by
  intro i hi; simp at hi

theorem parentBeforeChild_snoc {l : List TraceLine} {x : TraceLine}
    (h : ParentBeforeChild l) (hx : x.index = l.length)
    (hp : ∀ p ∈ x.parent, p < l.length) : ParentBeforeChild (l ++ [x]) := by
  intro i hi y hy
  rw [List.length_append, List.length_singleton] at hi
  by_cases hlt : i < l.length
  · rw [List.getElem?_append_left hlt] at hy
    obtain ⟨h1, h2⟩ := h i hlt y hy
    refine ⟨h1, fun p hpm => ?_⟩
    obtain ⟨h3, z, hz, hzi⟩ := h2 p hpm
    refine ⟨h3, z, ?_, hzi⟩
    rw [List.take_append_of_le_length (Nat.le_of_lt hlt)]
    exact hz
  · have hi2 : i = l.length := by omega
    subst hi2
    have hy2 : y = x := by
      have : (l ++ [x])[l.length]? = some x := by simp
      rw [this] at hy
      exact (Option.some.inj hy).symm
    subst hy2
    refine ⟨hx, fun p hpm => ?_⟩
    have hpl := hp p hpm
    refine ⟨by omega, ?_⟩
    have hget : l[p]? = some (l[p]) := List.getElem?_eq_getElem hpl
    refine ⟨l[p], ?_, (h p hpl _ hget).1⟩
    rw [List.take_append_of_le_length (Nat.le_refl _), List.take_length]
    exact List.getElem_mem hpl

theorem mem_of_lookup_eq_some {l : List (Nat × Nat)} {k v : Nat}
    (h : l.lookup k = some v) : (k, v) ∈ l := by
  induction l with
  | nil => simp at h
  | cons kv rest ih =>
    obtain ⟨a, b⟩ := kv
    by_cases hk : k = a
    · subst hk
      simp [List.lookup] at h
      subst h
      exact List.mem_cons_self _ _
    · have hk2 : (k == a) = false := by simpa using hk
      simp only [List.lookup, hk2] at h
      exact List.mem_cons_of_mem _ (ih h)

theorem commitInv_keep {c : Correlator} (x : PendingEntry) (h : CommitInv c) :
    CommitInv (c.keep x) :=
  ⟨h.ordered, h.assigned⟩

theorem commitInv_commit {c : Correlator} (x : PendingEntry) (parent : Option Nat)
    (h : CommitInv c) (hp : ∀ p ∈ parent, p < c.exported.length) :
    CommitInv (c.commit x parent) := by
  refine ⟨parentBeforeChild_snoc h.ordered rfl hp, ?_⟩
  intro kv hkv
  simp only [Correlator.commit, List.length_append, List.length_singleton] at hkv ⊢
  rcases List.mem_append.1 hkv with hkv | hkv
  · exact Nat.lt_succ_of_lt (h.assigned kv hkv)
  · simp at hkv; subst hkv; simp

theorem commitInv_flushStep (threshold : Nat) {c : Correlator} (x : PendingEntry)
    (h : CommitInv c) : CommitInv (c.flushStep threshold x) := by
  unfold Correlator.flushStep
  split
  · split
    · exact commitInv_keep x h
    · exact commitInv_commit x none h (by simp)
    · split
      · exact commitInv_keep x h
      · rename_i p i hl
        refine commitInv_commit x (some i) h ?_
        intro q hq
        simp at hq; subst hq
        exact h.assigned _ (mem_of_lookup_eq_some hl)
  · exact commitInv_keep x h

theorem commitInv_foldl_flushStep (threshold : Nat) (xs : List PendingEntry) :
    ∀ c : Correlator, CommitInv c → CommitInv (xs.foldl (Correlator.flushStep threshold) c) := by
  induction xs with
  | nil => intro c h; exact h
  | cons x rest ih =>
    intro c h
    exact ih _ (commitInv_flushStep threshold x h)

theorem commitInv_apply
    (precedes : RawEvent → RawEvent → Bool)
    (resolve : List PendingEntry → List (Nat × Nat) → RawEvent → ParentRef)
    {c : Correlator} (op : Op) (h : CommitInv c) :
    CommitInv (c.apply precedes resolve op) := by
  cases op with
  | handleEvent e => exact ⟨h.ordered, h.assigned⟩
  | handleRoot e => exact ⟨h.ordered, h.assigned⟩
  | checkOlderPending t => exact ⟨h.ordered, h.assigned⟩
  | flushOutgoing t =>
    exact commitInv_foldl_flushStep t c.pending _ ⟨h.ordered, h.assigned⟩

theorem commitInv_run
    (precedes : RawEvent → RawEvent → Bool)
    (resolve : List PendingEntry → List (Nat × Nat) → RawEvent → ParentRef)
    (ops : List Op) :
    ∀ c : Correlator, CommitInv c → CommitInv (c.run precedes resolve ops) := by
  induction ops with
  | nil => intro c h; exact h
  | cons op rest ih =>
    intro c h
    exact ih _ (commitInv_apply precedes resolve op h)

/-- C2: parent-before-child. Whatever events are ingested, however their parents
are resolved and ties between equal timestamps are ordered, and whenever
`checkOlderPending` and `flushOutgoing` are called, in the list of exported
trace lines the line at position `i` has index `i` and every parent index it
carries is smaller than its own index and is the index of a line exported
earlier in the list. The expected traces of the five tests have the same
property. -/
theorem exported_parent_before_child
    (precedes : RawEvent → RawEvent → Bool)
    (resolve : List PendingEntry → List (Nat × Nat) → RawEvent → ParentRef)
    (ops : List Op) :
    ParentBeforeChild (Correlator.empty.run precedes resolve ops).exported ∧
    (∀ t ∈ [trace_scaledownLater, trace_scaledownEarlier, trace_straight,
        trace_fluxEventLater, trace_fluxSts, trace_testPlayback], ParentBeforeChild t) :=
  ⟨(commitInv_run precedes resolve ops Correlator.empty
      ⟨parentBeforeChild_nil, by simp [Correlator.empty]⟩).ordered, by decide⟩

/-- C2, at the example session: events arriving out of order are exported with
the parent first. -/
theorem exported_parent_before_child_witness :
    (Correlator.empty.run examplePrecedes exampleResolve exampleOps).exported.map
        TraceLine.render =
      ["0: flux Deployment.Sync Commit e332e7bac962",
       "1: kubelet Pod.Created (0) Created container",
       "2: kubelet Pod.Started (0) Started container"] ∧
    ParentBeforeChild
      (Correlator.empty.run examplePrecedes exampleResolve exampleOps).exported :=
  ⟨by decide, (exported_parent_before_child examplePrecedes exampleResolve exampleOps).1⟩

end Kspan
